import Mathlib

/- Shallow embedding of the SARA_BACK risk core: src/app/risk_engine.py
   (class RiskEngine) and the aggregation / alert / utility layer of
   src/app/main.py.

   Modelling conventions:
   * Python floats are embedded as rationals.
   * Python round(x, ndigits) is embedded with Mathlib round (floor of
     x + 1/2); Python rounds half to even, and the two agree everywhere
     except at exact half-way ties, which no statement below touches.
   * Python dict access d["k"] raises KeyError when the key is missing;
     raw-metric inputs are embedded as records of Option fields and each
     category function returns an Option: none models the KeyError
     escaping the function (none of them has a try/except handler).
   * Python dicts preserve insertion order and sorted(...) is stable;
     sortDesc below is the stable descending-by-score insertion sort
     that sorted(..., key=score, reverse=True) performs. -/

/-- Python round(x, 2) on a rational. -/
def round2 (x : ℚ) : ℚ := (round (100 * x) : ℚ) / 100

/-- Python round(x, 1) on a rational. -/
def round1 (x : ℚ) : ℚ := (round (10 * x) : ℚ) / 10

/-- RiskEngine._score_to_level (risk_engine.py:121-128): the legacy
four-band severity labels used for every engine-produced assessment. -/
def _score_to_level (score : ℚ) : String :=
  if score < 20 then "Low"
  else if score < 50 then "Moderate"
  else if score < 75 then "High"
  else "Severe"

/-- main.py get_risk_level (main.py:800-810): the five-band labels used
for the overall risk only. -/
def get_risk_level (score : ℚ) : String :=
  if 80 ≤ score then "CRITICAL"
  else if 60 ≤ score then "HIGH"
  else if 40 ≤ score then "MEDIUM"
  else if 20 ≤ score then "LOW"
  else "VERY_LOW"

/-- main.py:482: the per-category alert test
risk_data["level"] in ["HIGH", "CRITICAL"]. -/
def level_triggers_alert (level : String) : Bool :=
  level == "HIGH" || level == "CRITICAL"

/-- The four strings _score_to_level can produce. -/
def legacy_levels : List String := ["Low", "Moderate", "High", "Severe"]

/-- The basic_needs mapping returned by the _get_*_basic_needs helpers:
a fixed set of six sector keys, each with a status string. -/
structure BasicNeeds where
  water : String
  energy : String
  hospitals : String
  food : String
  shelter : String
  transportation : String
deriving DecidableEq, Repr

/-- The needs dict every _get_*_basic_needs helper starts from
(risk_engine.py:132-139 and the other five copies); the update calls
replace all six keys, so each band is a complete record. -/
def normal_basic_needs : BasicNeeds :=
  { water := "Normal supply"
    energy := "Normal supply"
    hospitals := "Fully operational"
    food := "Normal availability"
    shelter := "Adequate"
    transportation := "Normal operations" }

/-- RiskEngine._get_flood_basic_needs (risk_engine.py:131-169). -/
def _get_flood_basic_needs (score : ℚ) : BasicNeeds :=
  if 75 ≤ score then
    { water := "EMERGENCY - Contaminated, need bottled water"
      energy := "CRITICAL - Widespread outages expected"
      hospitals := "OVERWHELMED - Emergency cases only"
      food := "SHORTAGE - Distribution disrupted"
      shelter := "URGENT - Evacuation shelters needed"
      transportation := "SEVERE DISRUPTION - Most routes impassable" }
  else if 50 ≤ score then
    { water := "BOIL ADVISORY - Treatment required"
      energy := "PARTIAL OUTAGES - Some areas affected"
      hospitals := "INCREASED DEMAND - Prepare for emergencies"
      food := "LIMITED - Stock essential supplies"
      shelter := "AT RISK - Prepare evacuation plans"
      transportation := "MAJOR DISRUPTIONS - Many routes affected" }
  else if 20 ≤ score then
    { water := "MONITOR QUALITY - Possible contamination"
      energy := "STABLE - Minor localized issues"
      hospitals := "NORMAL - Increased readiness"
      food := "ADEQUATE - Maintain supplies"
      shelter := "SECURE - Monitor conditions"
      transportation := "MINOR DISRUPTIONS - Some routes affected" }
  else normal_basic_needs

/-- RiskEngine._get_fire_basic_needs (risk_engine.py:171-209). -/
def _get_fire_basic_needs (score : ℚ) : BasicNeeds :=
  if 75 ≤ score then
    { water := "CRITICAL - Firefighting priority, restrictions"
      energy := "WIDESPREAD OUTAGES - Grid damage"
      hospitals := "OVERLOADED - Respiratory emergencies"
      food := "DISRUPTED - Evacuation impacts"
      shelter := "EMERGENCY - Mass evacuations needed"
      transportation := "SEVERELY DISRUPTED - Road closures, poor visibility" }
  else if 50 ≤ score then
    { water := "HIGH DEMAND - Firefighting needs"
      energy := "RISK OF OUTAGES - Grid instability"
      hospitals := "INCREASED LOAD - Respiratory cases"
      food := "STABLE - Prepare for disruptions"
      shelter := "PREPARE EVACUATION - At-risk areas"
      transportation := "SIGNIFICANT DISRUPTIONS - Smoke, closures" }
  else if 20 ≤ score then
    { water := "ADEQUATE - Monitor supply"
      energy := "STABLE - Watch for outages"
      hospitals := "NORMAL - Prepare for smoke-related cases"
      food := "NORMAL - Maintain supplies"
      shelter := "SECURE - Monitor fire progression"
      transportation := "MINOR DISRUPTIONS - Some smoke impacts" }
  else normal_basic_needs

/-- RiskEngine._get_drought_basic_needs (risk_engine.py:211-249). -/
def _get_drought_basic_needs (score : ℚ) : BasicNeeds :=
  if 75 ≤ score then
    { water := "CRITICAL SHORTAGE - Rationing implemented"
      energy := "REDUCED CAPACITY - Hydropower limited"
      hospitals := "STRESSED - Water-dependent services affected"
      food := "SHORTAGES - Crop failures, price increases"
      shelter := "AT RISK - Water scarcity issues"
      transportation := "IMPACTED - Dust storms, reduced visibility" }
  else if 50 ≤ score then
    { water := "RESTRICTED - Conservation measures"
      energy := "STABLE - Some hydropower reduction"
      hospitals := "OPERATIONAL - Water conservation needed"
      food := "INCREASING PRICES - Supply chain stress"
      shelter := "ADEQUATE - Water efficiency important"
      transportation := "MINOR IMPACTS - Dust concerns" }
  else if 20 ≤ score then
    { water := "ADEQUATE - Conservation encouraged"
      energy := "NORMAL - Monitor hydropower levels"
      hospitals := "NORMAL - Water efficiency practices"
      food := "STABLE - Monitor supplies"
      shelter := "SECURE - Water conservation"
      transportation := "NORMAL - Minimal impacts" }
  else normal_basic_needs

/-- RiskEngine._get_air_quality_basic_needs (risk_engine.py:251-289). -/
def _get_air_quality_basic_needs (score : ℚ) : BasicNeeds :=
  if 75 ≤ score then
    { water := "INDOOR USE RECOMMENDED - Avoid outdoor collection"
      energy := "INCREASED DEMAND - Indoor air filtration"
      hospitals := "OVERWHELMED - Respiratory emergencies surge"
      food := "DELIVERY RECOMMENDED - Limit outdoor exposure"
      shelter := "SEALED ENVIRONMENTS - Air filtration needed"
      transportation := "REDUCED SERVICES - Poor visibility, health risks" }
  else if 50 ≤ score then
    { water := "ADEQUATE - Limit outdoor exposure"
      energy := "STABLE - Some increased usage"
      hospitals := "INCREASED LOAD - Respiratory cases rising"
      food := "STABLE - Delivery options recommended"
      shelter := "INDOOR FOCUS - Limit outdoor time"
      transportation := "MODERATE DISRUPTIONS - Reduced outdoor activity" }
  else if 20 ≤ score then
    { water := "NORMAL - Sensitive groups take care"
      energy := "NORMAL - Minimal impact"
      hospitals := "NORMAL - Monitor sensitive patients"
      food := "NORMAL - Outdoor activities limited for sensitive groups"
      shelter := "SECURE - Normal operations"
      transportation := "MINOR IMPACTS - Some visibility issues" }
  else normal_basic_needs

/-- RiskEngine._get_water_quality_basic_needs (risk_engine.py:291-329). -/
def _get_water_quality_basic_needs (score : ℚ) : BasicNeeds :=
  if 75 ≤ score then
    { water := "UNSAFE - Emergency distribution needed"
      energy := "STABLE - Water treatment plants stressed"
      hospitals := "OVERLOADED - Waterborne illness cases"
      food := "CONTAMINATION RISK - Agriculture affected"
      shelter := "WATER CRISIS - Alternative sources needed"
      transportation := "MINIMAL IMPACT - Waterway transport affected" }
  else if 50 ≤ score then
    { water := "TREATMENT REQUIRED - Boil water advisory"
      energy := "STABLE - Increased treatment costs"
      hospitals := "INCREASED CASES - Gastrointestinal illnesses"
      food := "MONITOR QUALITY - Irrigation concerns"
      shelter := "WATER TREATMENT NEEDED - Filtration systems"
      transportation := "MINIMAL IMPACT - Some waterway issues" }
  else if 20 ≤ score then
    { water := "MONITOR QUALITY - Some treatment advised"
      energy := "NORMAL - Minimal impact"
      hospitals := "NORMAL - Watch for water-related illnesses"
      food := "ADEQUATE - Monitor irrigation water"
      shelter := "SECURE - Water testing recommended"
      transportation := "NORMAL - Minimal impact" }
  else normal_basic_needs

/-- RiskEngine._get_population_basic_needs (risk_engine.py:331-369). -/
def _get_population_basic_needs (score : ℚ) : BasicNeeds :=
  if 75 ≤ score then
    { water := "INFRASTRUCTURE STRAIN - Supply shortages possible"
      energy := "OVERLOADED - Frequent outages, capacity issues"
      hospitals := "OVERWHELMED - Long wait times, resource shortages"
      food := "SHORTAGES - Supply chain strain, price inflation"
      shelter := "CRITICAL SHORTAGE - Housing crisis, overcrowding"
      transportation := "SEVERE CONGESTION - Gridlock, extended commute times" }
  else if 50 ≤ score then
    { water := "INCREASING DEMAND - Infrastructure stress"
      energy := "GROWING DEMAND - Occasional brownouts"
      hospitals := "UNDER PRESSURE - Extended wait times"
      food := "INFLATION PRESSURES - Supply chain stress"
      shelter := "SHORTAGE DEVELOPING - Affordable housing crisis"
      transportation := "HEAVY CONGESTION - Delays, infrastructure strain" }
  else if 20 ≤ score then
    { water := "ADEQUATE - Monitor demand growth"
      energy := "STABLE - Plan for capacity increases"
      hospitals := "ADEQUATE - Prepare for increased demand"
      food := "SUFFICIENT - Monitor supply chains"
      shelter := "ADEQUATE - Plan for growth management"
      transportation := "MANAGEABLE - Some congestion issues" }
  else normal_basic_needs

/-- RiskEngine._get_flood_recommendations (risk_engine.py:373-398);
the rainfall_mm argument is passed but unused in the body. -/
def _get_flood_recommendations (score rainfall_mm : ℚ) : List String :=
  if 75 ≤ score then
    ["Activate emergency flood response plan",
     "Evacuate low-lying areas immediately",
     "Deploy sandbags and flood barriers",
     "Close flood-prone roads and bridges"]
  else if 50 ≤ score then
    ["Monitor water levels continuously",
     "Prepare emergency shelters",
     "Alert residents in flood-prone zones",
     "Clear drainage systems"]
  else if 20 ≤ score then
    ["Check local drainage systems",
     "Monitor weather forecasts",
     "Prepare emergency kits",
     "Identify evacuation routes"]
  else ["Normal conditions - maintain routine monitoring"]

/-- RiskEngine._get_flood_community_impact (risk_engine.py:400-408). -/
def _get_flood_community_impact (score : ℚ) : String :=
  if 75 ≤ score then
    "Severe disruption to transportation, potential property damage, health risks from contaminated water"
  else if 50 ≤ score then
    "Moderate disruption, some road closures, possible property damage in low-lying areas"
  else if 20 ≤ score then
    "Minor disruptions, localized flooding in poor drainage areas"
  else "Minimal impact on community activities"

/-- RiskEngine._get_flood_type (risk_engine.py:410-418). -/
def _get_flood_type (rainfall_mm : ℚ) : String :=
  if 100 < rainfall_mm then "Major flood event"
  else if 60 < rainfall_mm then "Flash flooding"
  else if 30 < rainfall_mm then "Urban flooding"
  else "Localized flooding"

/-- RiskEngine._get_flood_impact_areas (risk_engine.py:420-428). -/
def _get_flood_impact_areas (score : ℚ) : List String :=
  if 75 ≤ score then
    ["Low-lying residential areas", "Urban centers", "Transportation corridors", "Commercial districts"]
  else if 50 ≤ score then
    ["Low-lying areas", "Poor drainage zones", "Some transportation routes"]
  else if 20 ≤ score then
    ["Localized poor drainage areas"]
  else ["Minimal impact areas"]

/-- RiskEngine._get_fire_recommendations (risk_engine.py:432-457);
the fire_count argument is passed but unused in the body. -/
def _get_fire_recommendations (score fire_count : ℚ) : List String :=
  if 75 ≤ score then
    ["Activate emergency fire response",
     "Evacuate high-risk areas immediately",
     "Close affected parks and natural areas",
     "Issue total fire ban"]
  else if 50 ≤ score then
    ["Increase fire patrols",
     "Prepare evacuation plans",
     "Restrict outdoor burning",
     "Alert nearby communities"]
  else if 20 ≤ score then
    ["Monitor fire weather conditions",
     "Clear vegetation around properties",
     "Prepare emergency water supplies",
     "Review evacuation routes"]
  else ["Maintain normal fire safety protocols"]

/-- RiskEngine._get_fire_community_impact (risk_engine.py:459-467). -/
def _get_fire_community_impact (score : ℚ) : String :=
  if 75 ≤ score then
    "High risk of property damage, potential evacuations, health impacts from smoke, transportation disruptions"
  else if 50 ≤ score then
    "Moderate risk to properties, possible evacuations, air quality concerns"
  else if 20 ≤ score then
    "Localized impacts, minor smoke concerns, outdoor activity restrictions"
  else "Minimal community impact"

/-- RiskEngine._get_fire_intensity_level (risk_engine.py:469-477). -/
def _get_fire_intensity_level (intensity : ℚ) : String :=
  if 4/5 < intensity then "Extreme"
  else if 3/5 < intensity then "High"
  else if 2/5 < intensity then "Moderate"
  else "Low"

/-- RiskEngine._get_fire_evacuation_zones (risk_engine.py:479-487). -/
def _get_fire_evacuation_zones (score : ℚ) : List String :=
  if 75 ≤ score then
    ["Wildland-urban interface", "Dense vegetation areas", "All residential zones within 5km"]
  else if 50 ≤ score then
    ["High-risk vegetation zones", "Outlying residential areas"]
  else if 20 ≤ score then
    ["Immediate fire perimeter"]
  else ["No evacuation zones identified"]

/-- RiskEngine._get_drought_recommendations (risk_engine.py:490-514). -/
def _get_drought_recommendations (score : ℚ) : List String :=
  if 75 ≤ score then
    ["Implement strict water rationing",
     "Prioritize essential water use only",
     "Activate emergency water supplies",
     "Support agricultural communities"]
  else if 50 ≤ score then
    ["Voluntary water conservation",
     "Monitor reservoir levels",
     "Implement water-saving measures",
     "Prepare drought contingency plans"]
  else if 20 ≤ score then
    ["Promote water conservation",
     "Monitor drought indicators",
     "Prepare for potential restrictions"]
  else ["Normal water management practices"]

/-- RiskEngine._get_drought_community_impact (risk_engine.py:516-524). -/
def _get_drought_community_impact (score : ℚ) : String :=
  if 75 ≤ score then
    "Severe water shortages, agricultural losses, potential economic impacts, health concerns"
  else if 50 ≤ score then
    "Water restrictions likely, agricultural stress, increased fire risk"
  else if 20 ≤ score then
    "Minor water supply concerns, outdoor water use restrictions possible"
  else "Minimal impact on water resources"

/-- RiskEngine._get_drought_category (risk_engine.py:526-534). -/
def _get_drought_category (score : ℚ) : String :=
  if 75 ≤ score then "Exceptional Drought"
  else if 50 ≤ score then "Severe Drought"
  else if 20 ≤ score then "Moderate Drought"
  else "No Drought"

/-- RiskEngine._get_water_restrictions (risk_engine.py:536-544). -/
def _get_water_restrictions (score : ℚ) : String :=
  if 75 ≤ score then "Stage 4: Essential use only, no outdoor watering"
  else if 50 ≤ score then "Stage 3: Limited outdoor watering, car washing restrictions"
  else if 20 ≤ score then "Stage 2: Voluntary conservation, reduced outdoor watering"
  else "No restrictions"

/-- RiskEngine._get_air_quality_recommendations (risk_engine.py:547-569). -/
def _get_air_quality_recommendations (score : ℚ) : List String :=
  if 75 ≤ score then
    ["Stay indoors with windows closed",
     "Use air purifiers if available",
     "Limit physical exertion outdoors",
     "Wear masks if going outside"]
  else if 50 ≤ score then
    ["Sensitive groups should reduce outdoor activity",
     "Keep windows closed during peak pollution",
     "Monitor air quality updates"]
  else if 20 ≤ score then
    ["Sensitive individuals should take precautions",
     "Moderate outdoor activities acceptable"]
  else ["Air quality is good - normal activities"]

/-- RiskEngine._get_air_quality_community_impact (risk_engine.py:571-579). -/
def _get_air_quality_community_impact (score : ℚ) : String :=
  if 75 ≤ score then
    "Serious health risks for all residents, school and business disruptions, transportation impacts"
  else if 50 ≤ score then
    "Health concerns for sensitive groups, reduced outdoor activities"
  else if 20 ≤ score then
    "Minor impacts for sensitive individuals only"
  else "Minimal health impacts"

/-- RiskEngine._get_health_advisory (risk_engine.py:581-589). -/
def _get_health_advisory (aqi : ℚ) : String :=
  if 150 < aqi then "HEALTH WARNING: Serious effects for everyone"
  else if 100 < aqi then "HEALTH ALERT: Unhealthy for sensitive groups"
  else if 50 < aqi then "Moderate health concern"
  else "Good air quality"

/-- RiskEngine._get_vulnerable_groups (risk_engine.py:591-597). -/
def _get_vulnerable_groups (aqi : ℚ) : List String :=
  if 100 < aqi then
    ["Children", "Elderly", "Pregnant women", "Respiratory conditions", "Heart conditions"]
  else if 50 < aqi then
    ["Children", "Elderly", "Respiratory conditions"]
  else ["None specific"]

/-- RiskEngine._get_water_quality_recommendations (risk_engine.py:600-625);
note the extra pH advisory appended outside the score bands. -/
def _get_water_quality_recommendations (score ph_level : ℚ) : List String :=
  let recommendations :=
    if 75 ≤ score then
      ["Boil water before consumption",
       "Avoid recreational water activities",
       "Use alternative water sources",
       "Report water quality concerns to authorities"]
    else if 50 ≤ score then
      ["Use water filters for drinking",
       "Limit recreational water contact",
       "Monitor water quality updates"]
    else if 20 ≤ score then
      ["Consider water treatment for sensitive uses",
       "Follow local water advisories"]
    else ["Water quality is good - normal use"]
  if ph_level < 13/2 ∨ 17/2 < ph_level then
    recommendations ++ ["pH levels outside optimal range - consider treatment"]
  else recommendations

/-- RiskEngine._get_water_quality_community_impact (risk_engine.py:627-635). -/
def _get_water_quality_community_impact (score : ℚ) : String :=
  if 75 ≤ score then
    "Serious health risks from water consumption, recreational closures, economic impacts on fishing/tourism"
  else if 50 ≤ score then
    "Health concerns for vulnerable groups, some recreational restrictions"
  else if 20 ≤ score then
    "Minor water quality concerns, precautionary measures advised"
  else "Minimal impact on water uses"

/-- RiskEngine._get_water_health_implications (risk_engine.py:637-645). -/
def _get_water_health_implications (score : ℚ) : String :=
  if 75 ≤ score then "High risk of waterborne diseases, gastrointestinal illnesses"
  else if 50 ≤ score then "Moderate health risk, avoid ingestion without treatment"
  else if 20 ≤ score then "Low risk, basic treatment recommended for sensitive uses"
  else "Minimal health risk"

/-- RiskEngine._get_water_safety_level (risk_engine.py:647-655). -/
def _get_water_safety_level (score : ℚ) : String :=
  if 75 ≤ score then "UNSAFE - Do not consume without treatment"
  else if 50 ≤ score then "CAUTION - Treat before consumption"
  else if 20 ≤ score then "MODERATE - Safe with basic treatment"
  else "SAFE - Generally safe for consumption"

/-- RiskEngine._get_population_recommendations (risk_engine.py:658-682);
the population argument is passed but unused in the body. -/
def _get_population_recommendations (score population : ℚ) : List String :=
  if 75 ≤ score then
    ["Implement urban planning reforms",
     "Invest in public transportation infrastructure",
     "Develop affordable housing programs",
     "Expand social services capacity"]
  else if 50 ≤ score then
    ["Monitor urban growth patterns",
     "Plan infrastructure upgrades",
     "Develop mixed-use zoning",
     "Improve public services"]
  else if 20 ≤ score then
    ["Conduct growth impact studies",
     "Maintain infrastructure maintenance",
     "Monitor service delivery quality"]
  else ["Sustainable growth patterns - continue current planning"]

/-- RiskEngine._get_population_community_impact (risk_engine.py:684-692). -/
def _get_population_community_impact (score : ℚ) : String :=
  if 75 ≤ score then
    "Severe strain on infrastructure, housing shortages, traffic congestion, service delivery challenges"
  else if 50 ≤ score then
    "Moderate infrastructure pressure, rising housing costs, transportation challenges"
  else if 20 ≤ score then
    "Minor growth pressures, manageable service demands"
  else "Sustainable community development"

/-- RiskEngine._get_urban_challenges (risk_engine.py:694-704). -/
def _get_urban_challenges (score : ℚ) : List String :=
  if 75 ≤ score then
    ["Overcrowding", "Housing affordability", "Traffic congestion", "Service delivery strain"]
  else if 50 ≤ score then
    ["Urban sprawl", "Infrastructure maintenance", "Public service demands"]
  else if 20 ≤ score then
    ["Growth management", "Infrastructure planning"]
  else ["Balanced development"]

/-- RiskEngine._get_infrastructure_needs (risk_engine.py:706-714). -/
def _get_infrastructure_needs (score : ℚ) : List String :=
  if 75 ≤ score then
    ["Major transportation upgrades", "Housing development", "Social service expansion", "Utility capacity increases"]
  else if 50 ≤ score then
    ["Infrastructure maintenance", "Public transit improvements", "Service capacity planning"]
  else if 20 ≤ score then
    ["Routine infrastructure updates", "Growth monitoring systems"]
  else ["Maintain current infrastructure"]

/-- Raw flood score (risk_engine.py:29):
min(98, (rainfall_mm / 200) * 100 + turbidity_NTU). -/
def flood_raw_score (rainfall_mm turbidity_NTU : ℚ) : ℚ :=
  min 98 (rainfall_mm / 200 * 100 + turbidity_NTU)

/-- Raw fire score (risk_engine.py:44):
min(95, fire_count * 10 + avg_intensity * 50). -/
def fire_raw_score (fire_count avg_intensity : ℚ) : ℚ :=
  min 95 (fire_count * 10 + avg_intensity * 50)

/-- Raw drought score (risk_engine.py:59-62): max(0, 100 - rainfall_mm),
times 1.2 in the dry season, then min(95, score). -/
def drought_raw_score (rainfall_mm : ℚ) (season : String) : ℚ :=
  let score := max 0 (100 - rainfall_mm)
  let score := if season = "dry" then score * (6/5) else score
  min 95 score

/-- Raw air-quality score (risk_engine.py:77): min(95, (AQI / 150) * 100). -/
def air_raw_score (aqi : ℚ) : ℚ :=
  min 95 (aqi / 150 * 100)

/-- Raw water-quality score (risk_engine.py:92):
min(95, abs(7 - pH) * 10 + turbidity_NTU * 2). -/
def water_raw_score (ph turbidity_NTU : ℚ) : ℚ :=
  min 95 (|7 - ph| * 10 + turbidity_NTU * 2)

/-- Raw population-pressure score (risk_engine.py:107):
min(95, (population / 2000000) * 100 + growth_trend * 100). -/
def population_raw_score (population growth_trend : ℚ) : ℚ :=
  min 95 (population / 2000000 * 100 + growth_trend * 100)

/-- The rainfall metrics dict; the engine reads keys rainfall_mm and
season, either of which may be missing. -/
structure RainfallDict where
  rainfall_mm : Option ℚ
  season : Option String

/-- The water metrics dict; the engine reads keys turbidity_NTU and pH. -/
structure WaterDict where
  turbidity_NTU : Option ℚ
  pH : Option ℚ

/-- The fire metrics dict; the engine reads keys fire_count and
avg_intensity. -/
structure FireDict where
  fire_count : Option ℚ
  avg_intensity : Option ℚ

/-- The air metrics dict; the engine reads key AQI. -/
structure AirDict where
  AQI : Option ℚ

/-- The population metrics dict; the engine reads keys population and
growth_trend. -/
structure PopulationDict where
  population : Option ℚ
  growth_trend : Option ℚ

/-- The dict returned by RiskEngine.calculate_flood_risk
(risk_engine.py:32-41): exactly these keys, and no data_quality key. -/
structure FloodAssessment where
  level : String
  score : ℚ
  confidence : ℚ
  recommendations : List String
  community_impact : String
  basic_needs : BasicNeeds
  flood_type : String
  expected_impact_areas : List String
deriving DecidableEq, Repr

/-- The dict returned by RiskEngine.calculate_fire_risk
(risk_engine.py:47-56). -/
structure FireAssessment where
  level : String
  score : ℚ
  confidence : ℚ
  recommendations : List String
  community_impact : String
  basic_needs : BasicNeeds
  fire_intensity : String
  evacuation_zones : List String
deriving DecidableEq, Repr

/-- The dict returned by RiskEngine.calculate_drought_risk
(risk_engine.py:65-74). -/
structure DroughtAssessment where
  level : String
  score : ℚ
  confidence : ℚ
  recommendations : List String
  community_impact : String
  basic_needs : BasicNeeds
  drought_category : String
  water_restrictions : String
deriving DecidableEq, Repr

/-- The dict returned by RiskEngine.calculate_air_quality_risk
(risk_engine.py:80-89). -/
structure AirQualityAssessment where
  level : String
  score : ℚ
  confidence : ℚ
  recommendations : List String
  community_impact : String
  basic_needs : BasicNeeds
  health_advisory : String
  vulnerable_groups : List String
deriving DecidableEq, Repr

/-- The dict returned by RiskEngine.calculate_water_quality_risk
(risk_engine.py:95-104). -/
structure WaterQualityAssessment where
  level : String
  score : ℚ
  confidence : ℚ
  recommendations : List String
  community_impact : String
  basic_needs : BasicNeeds
  health_implications : String
  water_safety : String
deriving DecidableEq, Repr

/-- The dict returned by RiskEngine.calculate_population_pressure
(risk_engine.py:110-119). -/
structure PopulationAssessment where
  level : String
  score : ℚ
  confidence : ℚ
  recommendations : List String
  community_impact : String
  basic_needs : BasicNeeds
  urban_challenges : List String
  infrastructure_needs : List String
deriving DecidableEq, Repr

/-- RiskEngine.calculate_flood_risk (risk_engine.py:28-41): a missing
rainfall_mm or turbidity_NTU key propagates as none (KeyError). -/
def calculate_flood_risk : RainfallDict → WaterDict → Option FloodAssessment
  | ⟨some rainfall_mm, _⟩, ⟨some turbidity_NTU, _⟩ =>
    let score := flood_raw_score rainfall_mm turbidity_NTU
    some
      { level := _score_to_level score
        score := round2 score
        confidence := 9/10
        recommendations := _get_flood_recommendations score rainfall_mm
        community_impact := _get_flood_community_impact score
        basic_needs := _get_flood_basic_needs score
        flood_type := _get_flood_type rainfall_mm
        expected_impact_areas := _get_flood_impact_areas score }
  | _, _ => none

/-- RiskEngine.calculate_fire_risk (risk_engine.py:43-56). -/
def calculate_fire_risk : FireDict → Option FireAssessment
  | ⟨some fire_count, some avg_intensity⟩ =>
    let score := fire_raw_score fire_count avg_intensity
    some
      { level := _score_to_level score
        score := round2 score
        confidence := 17/20
        recommendations := _get_fire_recommendations score fire_count
        community_impact := _get_fire_community_impact score
        basic_needs := _get_fire_basic_needs score
        fire_intensity := _get_fire_intensity_level avg_intensity
        evacuation_zones := _get_fire_evacuation_zones score }
  | _ => none

/-- RiskEngine.calculate_drought_risk (risk_engine.py:58-74). -/
def calculate_drought_risk : RainfallDict → Option DroughtAssessment
  | ⟨some rainfall_mm, some season⟩ =>
    let score := drought_raw_score rainfall_mm season
    some
      { level := _score_to_level score
        score := round2 score
        confidence := 4/5
        recommendations := _get_drought_recommendations score
        community_impact := _get_drought_community_impact score
        basic_needs := _get_drought_basic_needs score
        drought_category := _get_drought_category score
        water_restrictions := _get_water_restrictions score }
  | _ => none

/-- RiskEngine.calculate_air_quality_risk (risk_engine.py:76-89). -/
def calculate_air_quality_risk : AirDict → Option AirQualityAssessment
  | ⟨some aqi⟩ =>
    let score := air_raw_score aqi
    some
      { level := _score_to_level score
        score := round2 score
        confidence := 17/20
        recommendations := _get_air_quality_recommendations score
        community_impact := _get_air_quality_community_impact score
        basic_needs := _get_air_quality_basic_needs score
        health_advisory := _get_health_advisory aqi
        vulnerable_groups := _get_vulnerable_groups aqi }
  | _ => none

/-- RiskEngine.calculate_water_quality_risk (risk_engine.py:91-104). -/
def calculate_water_quality_risk : WaterDict → Option WaterQualityAssessment
  | ⟨some turbidity_NTU, some ph⟩ =>
    let score := water_raw_score ph turbidity_NTU
    some
      { level := _score_to_level score
        score := round2 score
        confidence := 4/5
        recommendations := _get_water_quality_recommendations score ph
        community_impact := _get_water_quality_community_impact score
        basic_needs := _get_water_quality_basic_needs score
        health_implications := _get_water_health_implications score
        water_safety := _get_water_safety_level score }
  | _ => none

/-- RiskEngine.calculate_population_pressure (risk_engine.py:106-119). -/
def calculate_population_pressure : PopulationDict → Option PopulationAssessment
  | ⟨some population, some growth_trend⟩ =>
    let score := population_raw_score population growth_trend
    some
      { level := _score_to_level score
        score := round2 score
        confidence := 3/4
        recommendations := _get_population_recommendations score population
        community_impact := _get_population_community_impact score
        basic_needs := _get_population_basic_needs score
        urban_challenges := _get_urban_challenges score
        infrastructure_needs := _get_infrastructure_needs score }
  | _ => none

/-- main.py:415-416: overall_score = sum of score*confidence over the
risks dict divided by its length (0 for an empty list). Each list entry
is the (score, confidence) pair of one category. -/
def overall_score (risks : List (ℚ × ℚ)) : ℚ :=
  let risk_scores := risks.map fun rc => rc.1 * rc.2
  if risk_scores.isEmpty then 0 else risk_scores.sum / risk_scores.length

/-- main.py:429: the reported overall confidence
round(sum(confidences) / len(risks), 2). -/
def overall_confidence (risks : List (ℚ × ℚ)) : ℚ :=
  round2 ((risks.map Prod.snd).sum / risks.length)

/-- main.py:430: the trend field of the overall risk. -/
def overall_trend (risks : List (ℚ × ℚ)) : String :=
  if 60 < overall_score risks then "increasing"
  else if 30 < overall_score risks then "stable"
  else "decreasing"

/-- One step of the Python stable sorted(..., key=score, reverse=True)
(main.py:419-423): the new element passes over strictly greater scores
and lands in front of every element whose score is less than or equal to
its own that it meets, so earlier input elements stay ahead on ties. -/
def insertDesc (p : String × ℚ) : List (String × ℚ) → List (String × ℚ)
  | [] => [p]
  | q :: rest => if p.2 < q.2 then q :: insertDesc p rest else p :: q :: rest

/-- The Python stable descending sort by score (main.py:419-423). -/
def sortDesc : List (String × ℚ) → List (String × ℚ)
  | [] => []
  | p :: rest => insertDesc p (sortDesc rest)

/-- The risks dict of calculate_comprehensive_risk (main.py:404-412) as
a (name, score) list in its declaration order, abstracted over the seven
category scores. -/
def risk_items (s1 s2 s3 s4 s5 s6 s7 : ℚ) : List (String × ℚ) :=
  [("flood", s1), ("fire", s2), ("drought", s3), ("cyclone", s4),
   ("air_quality", s5), ("water_quality", s6), ("pollution", s7)]

/-- main.py:419-423,431: primary_threats, the names of the top three
entries of the stable descending sort by score. -/
def primary_threats (pairs : List (String × ℚ)) : List String :=
  ((sortDesc pairs).take 3).map Prod.fst

/-- Modelled from the spec: one insertion step of ranking by the spec
rule of section 4.3, "top-3 categories by raw score descending, ties
broken by declaration order"; each element carries its declaration
index, and an element ranks strictly earlier when its score is larger or
when the scores tie and its index is smaller. -/
def insertRank (p : ℕ × String × ℚ) : List (ℕ × String × ℚ) → List (ℕ × String × ℚ)
  | [] => [p]
  | q :: rest =>
    if p.2.2 < q.2.2 ∨ (q.2.2 = p.2.2 ∧ q.1 < p.1) then q :: insertRank p rest
    else p :: q :: rest

/-- Modelled from the spec: full ranking by score descending with
declaration-index tiebreak. -/
def rankSort : List (ℕ × String × ℚ) → List (ℕ × String × ℚ)
  | [] => []
  | p :: rest => insertRank p (rankSort rest)

/-- Modelled from the spec: primary_threats as section 4.3 words it, the
top three category names ranked by raw score descending with ties broken
by declaration (insertion) order. -/
def spec_primary_threats (pairs : List (String × ℚ)) : List String :=
  ((rankSort pairs.enum).take 3).map fun x => x.2.1

/-- A Python value as far as the risk dicts need one. -/
inductive PyVal where
  | str : String → PyVal
  | num : ℚ → PyVal
  | strList : List String → PyVal
  | needs : BasicNeeds → PyVal
deriving DecidableEq

/-- Python dict .get on the literal dict calculate_flood_risk returns
(risk_engine.py:32-41): the eight keys present map to their values,
every other key (data_quality included) to none. -/
def flood_dict_get (a : FloodAssessment) : String → Option PyVal
  | "level" => some (PyVal.str a.level)
  | "score" => some (PyVal.num a.score)
  | "confidence" => some (PyVal.num a.confidence)
  | "recommendations" => some (PyVal.strList a.recommendations)
  | "community_impact" => some (PyVal.str a.community_impact)
  | "basic_needs" => some (PyVal.needs a.basic_needs)
  | "flood_type" => some (PyVal.str a.flood_type)
  | "expected_impact_areas" => some (PyVal.strList a.expected_impact_areas)
  | _ => none

/-- Python dict .get on the dict calculate_fire_risk returns
(risk_engine.py:47-56). -/
def fire_dict_get (a : FireAssessment) : String → Option PyVal
  | "level" => some (PyVal.str a.level)
  | "score" => some (PyVal.num a.score)
  | "confidence" => some (PyVal.num a.confidence)
  | "recommendations" => some (PyVal.strList a.recommendations)
  | "community_impact" => some (PyVal.str a.community_impact)
  | "basic_needs" => some (PyVal.needs a.basic_needs)
  | "fire_intensity" => some (PyVal.str a.fire_intensity)
  | "evacuation_zones" => some (PyVal.strList a.evacuation_zones)
  | _ => none

/-- Python dict .get on the dict calculate_drought_risk returns
(risk_engine.py:65-74). -/
def drought_dict_get (a : DroughtAssessment) : String → Option PyVal
  | "level" => some (PyVal.str a.level)
  | "score" => some (PyVal.num a.score)
  | "confidence" => some (PyVal.num a.confidence)
  | "recommendations" => some (PyVal.strList a.recommendations)
  | "community_impact" => some (PyVal.str a.community_impact)
  | "basic_needs" => some (PyVal.needs a.basic_needs)
  | "drought_category" => some (PyVal.str a.drought_category)
  | "water_restrictions" => some (PyVal.str a.water_restrictions)
  | _ => none

/-- Python dict .get on the dict calculate_air_quality_risk returns
(risk_engine.py:80-89). -/
def air_dict_get (a : AirQualityAssessment) : String → Option PyVal
  | "level" => some (PyVal.str a.level)
  | "score" => some (PyVal.num a.score)
  | "confidence" => some (PyVal.num a.confidence)
  | "recommendations" => some (PyVal.strList a.recommendations)
  | "community_impact" => some (PyVal.str a.community_impact)
  | "basic_needs" => some (PyVal.needs a.basic_needs)
  | "health_advisory" => some (PyVal.str a.health_advisory)
  | "vulnerable_groups" => some (PyVal.strList a.vulnerable_groups)
  | _ => none

/-- Python dict .get on the dict calculate_water_quality_risk returns
(risk_engine.py:95-104). -/
def water_dict_get (a : WaterQualityAssessment) : String → Option PyVal
  | "level" => some (PyVal.str a.level)
  | "score" => some (PyVal.num a.score)
  | "confidence" => some (PyVal.num a.confidence)
  | "recommendations" => some (PyVal.strList a.recommendations)
  | "community_impact" => some (PyVal.str a.community_impact)
  | "basic_needs" => some (PyVal.needs a.basic_needs)
  | "health_implications" => some (PyVal.str a.health_implications)
  | "water_safety" => some (PyVal.str a.water_safety)
  | _ => none

/-- Python dict .get on the dict calculate_population_pressure returns
(risk_engine.py:110-119). -/
def population_dict_get (a : PopulationAssessment) : String → Option PyVal
  | "level" => some (PyVal.str a.level)
  | "score" => some (PyVal.num a.score)
  | "confidence" => some (PyVal.num a.confidence)
  | "recommendations" => some (PyVal.strList a.recommendations)
  | "community_impact" => some (PyVal.str a.community_impact)
  | "basic_needs" => some (PyVal.needs a.basic_needs)
  | "urban_challenges" => some (PyVal.strList a.urban_challenges)
  | "infrastructure_needs" => some (PyVal.strList a.infrastructure_needs)
  | _ => none

/-- The dict of a RiskEngine category function output, seen through .get. -/
def is_engine_output (g : String → Option PyVal) : Prop :=
  (∃ a, g = flood_dict_get a) ∨ (∃ a, g = fire_dict_get a) ∨
  (∃ a, g = drought_dict_get a) ∨ (∃ a, g = air_dict_get a) ∨
  (∃ a, g = water_dict_get a) ∨ (∃ a, g = population_dict_get a)

/-- main.py calculate_data_quality (main.py:824-826): the percentage of
risks whose data_quality field equals "real", rounded to one decimal;
each risk is its dict read through .get. -/
def calculate_data_quality (risks : List (String → Option PyVal)) : ℚ :=
  let real_data_count :=
    (risks.filter fun risk => risk "data_quality" == some (PyVal.str "real")).length
  round1 ((real_data_count : ℚ) / risks.length * 100)

/-- The core fields of a cyclone risk assessment. -/
structure CycloneAssessment where
  level : String
  score : ℚ
  confidence : ℚ
deriving DecidableEq, Repr

/-- Modelled from the spec: EnhancedRiskEngine.calculate_cyclone_risk is
not under src/ (main.py:408 only calls it). Spec section 4.2: with
active_systems == 0 it short-circuits to the fixed score 10 with
confidence 0.90 and no further adjustment; otherwise base 20 plus the
static coastal factor (default 0.3) times 15, confidence 0.65, ceiling
95; the level comes from the canonical five-band scoreToLevel, which
sections 4.1 and 8 fix as get_risk_level (score 10 gives VERY_LOW). -/
def calculate_cyclone_risk (active_systems : ℕ) (coastal : Option ℚ) : CycloneAssessment :=
  if active_systems = 0 then
    { level := get_risk_level 10, score := 10, confidence := 9/10 }
  else
    let score := min 95 (20 + (coastal.getD (3/10)) * 15)
    { level := get_risk_level score, score := score, confidence := 13/20 }

/-- Rounding to two decimals is monotone. -/
theorem round2_mono {x y : ℚ} (h : x ≤ y) : round2 x ≤ round2 y := by
  unfold round2
  have h2 : round (100 * x) ≤ round (100 * y) := by
    rw [round_eq, round_eq]
    exact Int.floor_le_floor (by linarith)
  have h3 : ((round (100 * x) : ℤ) : ℚ) ≤ ((round (100 * y) : ℤ) : ℚ) := by
    exact_mod_cast h2
  linarith

/-- Rounding to two decimals preserves nonnegativity. -/
theorem round2_nonneg {x : ℚ} (h : 0 ≤ x) : 0 ≤ round2 x := by
  have h2 := round2_mono h
  have h0 : round2 0 = 0 := by norm_num [round2]
  linarith

/-- Rounding to two decimals preserves the bound 98. -/
theorem round2_le_98 {x : ℚ} (h : x ≤ 98) : round2 x ≤ 98 := by
  have h2 := round2_mono h
  have h0 : round2 98 = 98 := by norm_num [round2, round_eq]
  linarith

/-- Rounding to two decimals preserves the bound 95. -/
theorem round2_le_95 {x : ℚ} (h : x ≤ 95) : round2 x ≤ 95 := by
  have h2 := round2_mono h
  have h0 : round2 95 = 95 := by norm_num [round2, round_eq]
  linarith

/-- The legacy level map only produces its four strings, none of which
is HIGH or CRITICAL, so the main.py alert test is never true on them. -/
theorem score_to_level_no_alert (q : ℚ) :
    _score_to_level q ∈ legacy_levels ∧
    level_triggers_alert (_score_to_level q) = false := by
  unfold _score_to_level
  split_ifs <;> exact ⟨by decide, rfl⟩

/-- Stable descending insertion permutes. -/
theorem insertDesc_perm (p : String × ℚ) (l : List (String × ℚ)) :
    List.Perm (insertDesc p l) (p :: l) := by
  induction l with
  | nil => exact List.Perm.refl _
  | cons q rest ih =>
    unfold insertDesc
    by_cases h : p.2 < q.2
    · rw [if_pos h]
      exact (ih.cons q).trans (List.Perm.swap p q rest)
    · rw [if_neg h]

/-- The stable descending sort permutes its input. -/
theorem sortDesc_perm (l : List (String × ℚ)) : List.Perm (sortDesc l) l := by
  induction l with
  | nil => exact List.Perm.refl _
  | cons p rest ih =>
    unfold sortDesc
    exact (insertDesc_perm p (sortDesc rest)).trans (ih.cons p)

/-- Stable descending insertion preserves descending order. -/
theorem insertDesc_sorted (p : String × ℚ) :
    ∀ l : List (String × ℚ), l.Pairwise (fun a b => b.2 ≤ a.2) →
      (insertDesc p l).Pairwise (fun a b => b.2 ≤ a.2) := by
  intro l
  induction l with
  | nil => intro _; simp [insertDesc]
  | cons q rest ih =>
    intro h
    rw [List.pairwise_cons] at h
    unfold insertDesc
    by_cases hpq : p.2 < q.2
    · rw [if_pos hpq]
      rw [List.pairwise_cons]
      constructor
      · intro b hb
        rcases List.mem_cons.mp ((insertDesc_perm p rest).subset hb) with rfl | hbr
        · exact le_of_lt hpq
        · exact h.1 b hbr
      · exact ih h.2
    · rw [if_neg hpq]
      push_neg at hpq
      rw [List.pairwise_cons]
      refine ⟨?_, List.pairwise_cons.mpr h⟩
      intro b hb
      rcases List.mem_cons.mp hb with rfl | hbr
      · exact hpq
      · exact le_trans (h.1 b hbr) hpq

/-- The stable descending sort yields a descending list. -/
theorem sortDesc_sorted (l : List (String × ℚ)) :
    (sortDesc l).Pairwise (fun a b => b.2 ≤ a.2) := by
  induction l with
  | nil => simp [sortDesc]
  | cons p rest ih =>
    unfold sortDesc
    exact insertDesc_sorted p (sortDesc rest) ih

/-- Rank insertion permutes. -/
theorem insertRank_perm (p : ℕ × String × ℚ) (l : List (ℕ × String × ℚ)) :
    List.Perm (insertRank p l) (p :: l) := by
  induction l with
  | nil => exact List.Perm.refl _
  | cons q rest ih =>
    unfold insertRank
    by_cases h : p.2.2 < q.2.2 ∨ (q.2.2 = p.2.2 ∧ q.1 < p.1)
    · rw [if_pos h]
      exact (ih.cons q).trans (List.Perm.swap p q rest)
    · rw [if_neg h]

/-- The rank sort permutes its input. -/
theorem rankSort_perm (l : List (ℕ × String × ℚ)) : List.Perm (rankSort l) l := by
  induction l with
  | nil => exact List.Perm.refl _
  | cons p rest ih =>
    unfold rankSort
    exact (insertRank_perm p (rankSort rest)).trans (ih.cons p)

/-- On a list whose declaration indices all exceed the inserted
element index, the stable descending insertion and the spec ranking
insertion agree. -/
theorem insertDesc_eq_insertRank (p : ℕ × String × ℚ) :
    ∀ m : List (ℕ × String × ℚ), (∀ q ∈ m, p.1 < q.1) →
      insertDesc p.2 (m.map Prod.snd) = (insertRank p m).map Prod.snd := by
  intro m
  induction m with
  | nil => intro _; rfl
  | cons q rest ih =>
    intro h
    have hq : p.1 < q.1 := h q (List.mem_cons_self q rest)
    simp only [List.map_cons]
    unfold insertDesc insertRank
    by_cases hlt : p.2.2 < q.2.2
    · rw [if_pos hlt, if_pos (Or.inl hlt)]
      simp only [List.map_cons]
      rw [ih fun r hr => h r (List.mem_cons_of_mem q hr)]
    · rw [if_neg hlt, if_neg ?_]
      · simp only [List.map_cons]
      · rintro (h1 | ⟨heq, hidx⟩)
        · exact hlt h1
        · omega

/-- On a list with strictly increasing declaration indices, the
stable descending sort computes exactly the spec ranking. -/
theorem sortDesc_eq_rankSort :
    ∀ l : List (ℕ × String × ℚ), l.Pairwise (fun a b => a.1 < b.1) →
      sortDesc (l.map Prod.snd) = (rankSort l).map Prod.snd := by
  intro l
  induction l with
  | nil => intro _; rfl
  | cons p rest ih =>
    intro h
    rw [List.pairwise_cons] at h
    simp only [List.map_cons]
    unfold sortDesc rankSort
    rw [ih h.2]
    exact insertDesc_eq_insertRank p (rankSort rest)
      fun q hq => h.1 q ((rankSort_perm rest).subset hq)

/-- Claim C1, counterexample: with every required raw-metric field
missing, each category function propagates the failure (returns none, a
KeyError escaping past its boundary) instead of returning a fallback
RiskAssessment — in particular none of them produces any dict at all,
let alone one with data_quality = "fallback". -/
theorem claimC1_counterexample :
    calculate_flood_risk ⟨none, none⟩ ⟨none, none⟩ = none ∧
    calculate_fire_risk ⟨none, none⟩ = none ∧
    calculate_drought_risk ⟨none, none⟩ = none ∧
    calculate_air_quality_risk ⟨none⟩ = none ∧
    calculate_water_quality_risk ⟨none, none⟩ = none ∧
    calculate_population_pressure ⟨none, none⟩ = none :=
  ⟨rfl, rfl, rfl, rfl, rfl, rfl⟩

/-- Claim C1, amended: each category scoring function returns a
well-formed RiskAssessment whenever its required raw-metric fields are
present; when a required field is missing the KeyError propagates out of
the function (modelled as none) — there is no local catch and no
fallback RiskAssessment. -/
theorem claimC1_theorem :
    (∀ r t sn ph, (calculate_flood_risk ⟨some r, sn⟩ ⟨some t, ph⟩).isSome = true) ∧
    (∀ sn w, calculate_flood_risk ⟨none, sn⟩ w = none) ∧
    (∀ r sn ph, calculate_flood_risk ⟨some r, sn⟩ ⟨none, ph⟩ = none) ∧
    (∀ c i, (calculate_fire_risk ⟨some c, some i⟩).isSome = true) ∧
    (∀ i, calculate_fire_risk ⟨none, i⟩ = none) ∧
    (∀ c, calculate_fire_risk ⟨some c, none⟩ = none) ∧
    (∀ r sn, (calculate_drought_risk ⟨some r, some sn⟩).isSome = true) ∧
    (∀ sn, calculate_drought_risk ⟨none, sn⟩ = none) ∧
    (∀ r, calculate_drought_risk ⟨some r, none⟩ = none) ∧
    (∀ aqi, (calculate_air_quality_risk ⟨some aqi⟩).isSome = true) ∧
    (calculate_air_quality_risk ⟨none⟩ = none) ∧
    (∀ t ph, (calculate_water_quality_risk ⟨some t, some ph⟩).isSome = true) ∧
    (∀ ph, calculate_water_quality_risk ⟨none, ph⟩ = none) ∧
    (∀ t, calculate_water_quality_risk ⟨some t, none⟩ = none) ∧
    (∀ p g, (calculate_population_pressure ⟨some p, some g⟩).isSome = true) ∧
    (∀ g, calculate_population_pressure ⟨none, g⟩ = none) ∧
    (∀ p, calculate_population_pressure ⟨some p, none⟩ = none) :=
  ⟨fun _ _ _ _ => rfl, fun _ _ => rfl, fun _ _ _ => rfl,
   fun _ _ => rfl, fun _ => rfl, fun _ => rfl,
   fun _ _ => rfl, fun _ => rfl, fun _ => rfl,
   fun _ => rfl, rfl,
   fun _ _ => rfl, fun _ => rfl, fun _ => rfl,
   fun _ _ => rfl, fun _ => rfl, fun _ => rfl⟩

/-- Claim C2, counterexample: the all-zero flood input (rainfall 0,
turbidity 0) yields score 0, not the 10 the claimed piecewise formula
with its max(10, r/2) floor would give. -/
theorem claimC2_counterexample :
    (calculate_flood_risk ⟨some 0, none⟩ ⟨some 0, none⟩).map FloodAssessment.score = some 0 ∧
    some (0 : ℚ) ≠ some (10 : ℚ) := by
  constructor
  · simp only [calculate_flood_risk, Option.map_some']
    norm_num [flood_raw_score, round2, min_def]
  · simp

/-- Claim C2, amended: calculate_flood_risk has no piecewise rainfall
bands and no forecast, static-factor or confidence terms; it computes
score = min(98, (rainfall_mm / 200) * 100 + turbidity_NTU), rounded to
two decimals, and the all-zero input yields score exactly 0. -/
theorem claimC2_theorem :
    (∀ rainfall_mm turbidity_NTU sn ph,
      (calculate_flood_risk ⟨some rainfall_mm, sn⟩ ⟨some turbidity_NTU, ph⟩).map FloodAssessment.score =
        some (round2 (flood_raw_score rainfall_mm turbidity_NTU))) ∧
    flood_raw_score 0 0 = 0 ∧
    round2 (flood_raw_score 0 0) = 0 := by
  refine ⟨fun r t sn ph => ?_, ?_, ?_⟩
  · simp only [calculate_flood_risk, Option.map_some']
  · norm_num [flood_raw_score, min_def]
  · norm_num [flood_raw_score, round2, min_def]

/-- Claim C3, counterexample: an engine-produced RiskAssessment with
score exactly 20 (flood input rainfall 40, turbidity 0) carries the
legacy level "Moderate", not the claimed 5-band "LOW": the engine maps
its assessments with the 4-band _score_to_level, not the 5-band scheme. -/
theorem claimC3_counterexample :
    (calculate_flood_risk ⟨some 40, none⟩ ⟨some 0, none⟩).map (fun a => (a.score, a.level)) =
      some ((20 : ℚ), "Moderate") ∧
    ("Moderate" : String) ≠ "LOW" := by
  constructor
  · simp only [calculate_flood_risk, Option.map_some']
    norm_num [flood_raw_score, round2, round_eq, _score_to_level, min_def]
  · decide

/-- Claim C3, amended: the main.py get_risk_level (used for the overall
risk only) is total, deterministic and follows the canonical 5-band
scheme with closed lower edges — in particular score 20 maps to LOW —
while the per-category engine assessments use the 4-band
_score_to_level (<20 Low, <50 Moderate, <75 High, else Severe), under
which score 20 maps to Moderate. -/
theorem claimC3_theorem :
    (∀ s : ℚ,
      ((get_risk_level s = "VERY_LOW") ↔ s < 20) ∧
      ((get_risk_level s = "LOW") ↔ 20 ≤ s ∧ s < 40) ∧
      ((get_risk_level s = "MEDIUM") ↔ 40 ≤ s ∧ s < 60) ∧
      ((get_risk_level s = "HIGH") ↔ 60 ≤ s ∧ s < 80) ∧
      ((get_risk_level s = "CRITICAL") ↔ 80 ≤ s)) ∧
    (∀ s : ℚ,
      ((_score_to_level s = "Low") ↔ s < 20) ∧
      ((_score_to_level s = "Moderate") ↔ 20 ≤ s ∧ s < 50) ∧
      ((_score_to_level s = "High") ↔ 50 ≤ s ∧ s < 75) ∧
      ((_score_to_level s = "Severe") ↔ 75 ≤ s)) ∧
    get_risk_level 20 = "LOW" ∧
    _score_to_level 20 = "Moderate" := by
  refine ⟨?_, ?_, by norm_num [get_risk_level], by norm_num [_score_to_level]⟩
  · intro s
    unfold get_risk_level
    split_ifs with h1 h2 h3 h4 <;> simp <;>
      (repeat' apply And.intro) <;> intros <;> linarith
  · intro s
    unfold _score_to_level
    split_ifs with h1 h2 h3 <;> simp <;>
      (repeat' apply And.intro) <;> intros <;> linarith

/-- Claim C4, counterexample: growth_trend is an arbitrary float
percent, and with population 0 and growth_trend -1 the population
pressure score is -100, violating the claimed lower bound 0. -/
theorem claimC4_counterexample :
    (calculate_population_pressure ⟨some 0, some (-1)⟩).map PopulationAssessment.score =
      some (-100) ∧
    ¬ (0 : ℚ) ≤ -100 := by
  constructor
  · simp only [calculate_population_pressure, Option.map_some']
    norm_num [population_raw_score, round2, round_eq, min_def]
  · norm_num

/-- Claim C4, amended: for inputs in the declared ranges — and with the
extra restriction growth_trend nonnegative, without which the population
score can go below 0 — every category score lies in [0, ceiling], with
ceiling 98 for flood and 95 for the others, the min clamp being the last
arithmetic step before the two-decimal rounding of the stored score. -/
theorem claimC4_theorem :
    (∀ r t sn ph x, 0 ≤ r → 0 ≤ t →
      (calculate_flood_risk ⟨some r, sn⟩ ⟨some t, ph⟩).map FloodAssessment.score = some x →
      0 ≤ x ∧ x ≤ 98) ∧
    (∀ c i x, 0 ≤ c → 0 ≤ i →
      (calculate_fire_risk ⟨some c, some i⟩).map FireAssessment.score = some x →
      0 ≤ x ∧ x ≤ 95) ∧
    (∀ r sn x,
      (calculate_drought_risk ⟨some r, some sn⟩).map DroughtAssessment.score = some x →
      0 ≤ x ∧ x ≤ 95) ∧
    (∀ aqi x, 0 ≤ aqi →
      (calculate_air_quality_risk ⟨some aqi⟩).map AirQualityAssessment.score = some x →
      0 ≤ x ∧ x ≤ 95) ∧
    (∀ t ph x, 0 ≤ t →
      (calculate_water_quality_risk ⟨some t, some ph⟩).map WaterQualityAssessment.score = some x →
      0 ≤ x ∧ x ≤ 95) ∧
    (∀ p g x, 0 ≤ p → 0 ≤ g →
      (calculate_population_pressure ⟨some p, some g⟩).map PopulationAssessment.score = some x →
      0 ≤ x ∧ x ≤ 95) := by
  refine ⟨?_, ?_, ?_, ?_, ?_, ?_⟩
  · intro r t sn ph x hr ht hx
    simp only [calculate_flood_risk, Option.map_some', Option.some.injEq] at hx
    subst hx
    have hlow : (0 : ℚ) ≤ flood_raw_score r t :=
      le_min (by norm_num) (by nlinarith)
    have hup : flood_raw_score r t ≤ 98 := min_le_left _ _
    exact ⟨round2_nonneg hlow, round2_le_98 hup⟩
  · intro c i x hc hi hx
    simp only [calculate_fire_risk, Option.map_some', Option.some.injEq] at hx
    subst hx
    have hlow : (0 : ℚ) ≤ fire_raw_score c i :=
      le_min (by norm_num) (by nlinarith)
    have hup : fire_raw_score c i ≤ 95 := min_le_left _ _
    exact ⟨round2_nonneg hlow, round2_le_95 hup⟩
  · intro r sn x hx
    simp only [calculate_drought_risk, Option.map_some', Option.some.injEq] at hx
    subst hx
    have hbranch : (0 : ℚ) ≤
        (if sn = "dry" then max 0 (100 - r) * (6/5) else max 0 (100 - r)) := by
      split_ifs
      · exact mul_nonneg (le_max_left 0 _) (by norm_num)
      · exact le_max_left 0 _
    have hlow : (0 : ℚ) ≤ drought_raw_score r sn := le_min (by norm_num) hbranch
    have hup : drought_raw_score r sn ≤ 95 := min_le_left _ _
    exact ⟨round2_nonneg hlow, round2_le_95 hup⟩
  · intro aqi x haqi hx
    simp only [calculate_air_quality_risk, Option.map_some', Option.some.injEq] at hx
    subst hx
    have hlow : (0 : ℚ) ≤ air_raw_score aqi :=
      le_min (by norm_num) (by nlinarith)
    have hup : air_raw_score aqi ≤ 95 := min_le_left _ _
    exact ⟨round2_nonneg hlow, round2_le_95 hup⟩
  · intro t ph x ht hx
    simp only [calculate_water_quality_risk, Option.map_some', Option.some.injEq] at hx
    subst hx
    have hlow : (0 : ℚ) ≤ water_raw_score ph t := by
      refine le_min (by norm_num) ?_
      have habs : (0 : ℚ) ≤ |7 - ph| := abs_nonneg _
      nlinarith
    have hup : water_raw_score ph t ≤ 95 := min_le_left _ _
    exact ⟨round2_nonneg hlow, round2_le_95 hup⟩
  · intro p g x hp hg hx
    simp only [calculate_population_pressure, Option.map_some', Option.some.injEq] at hx
    subst hx
    have hlow : (0 : ℚ) ≤ population_raw_score p g :=
      le_min (by norm_num) (by nlinarith)
    have hup : population_raw_score p g ≤ 95 := min_le_left _ _
    exact ⟨round2_nonneg hlow, round2_le_95 hup⟩

/-- Claim C4, witness: the flood bound instantiated at rainfall 10,
turbidity 1, where the stored score is 6. -/
theorem claimC4_witness : 0 ≤ (6 : ℚ) ∧ (6 : ℚ) ≤ 98 :=
  claimC4_theorem.1 10 1 none none 6 (by norm_num) (by norm_num) (by
    simp only [calculate_flood_risk, Option.map_some']
    norm_num [flood_raw_score, round2, round_eq, min_def])

/-- Claim C5, counterexample: the reported overall confidence is the
mean of the confidences rounded to two decimals, not the exact mean:
for three categories with confidences 1, 1, 0 the mean is 2/3 but the
reported value is 0.67. -/
theorem claimC5_counterexample :
    overall_confidence [((50 : ℚ), (1 : ℚ)), (50, 1), (50, 0)] = 67/100 ∧
    (([((50 : ℚ), (1 : ℚ)), (50, 1), (50, 0)].map Prod.snd).sum) /
      (([((50 : ℚ), (1 : ℚ)), (50, 1), (50, 0)] : List (ℚ × ℚ)).length) = 2/3 ∧
    (67/100 : ℚ) ≠ 2/3 := by
  refine ⟨?_, by norm_num, by norm_num⟩
  norm_num [overall_confidence, round2, round_eq]

/-- Claim C5, amended: overall_score is the mean of score times
confidence and the reported overall confidence is the mean of the
confidences rounded to two decimals; every set of categories all
scoring 50 with confidence 1.0 yields overall_score 50, confidence 1.0
and trend "stable", and the trend is "increasing" exactly when
overall_score exceeds 60, "stable" exactly when it is in (30, 60], and
"decreasing" exactly when it is at most 30. -/
theorem claimC5_theorem :
    (∀ n : ℕ, 1 ≤ n →
      overall_score (List.replicate n ((50 : ℚ), (1 : ℚ))) = 50 ∧
      overall_confidence (List.replicate n ((50 : ℚ), (1 : ℚ))) = 1 ∧
      overall_trend (List.replicate n ((50 : ℚ), (1 : ℚ))) = "stable") ∧
    (∀ risks : List (ℚ × ℚ), risks ≠ [] →
      overall_score risks = ((risks.map fun rc => rc.1 * rc.2).sum) / risks.length ∧
      overall_confidence risks = round2 (((risks.map Prod.snd).sum) / risks.length) ∧
      ((overall_trend risks = "increasing") ↔ 60 < overall_score risks) ∧
      ((overall_trend risks = "stable") ↔
        30 < overall_score risks ∧ overall_score risks ≤ 60) ∧
      ((overall_trend risks = "decreasing") ↔ overall_score risks ≤ 30)) := by
  constructor
  · intro n hn
    have hne : (n : ℚ) ≠ 0 := Nat.cast_ne_zero.mpr (by omega)
    obtain ⟨m, rfl⟩ : ∃ m, n = m + 1 := ⟨n - 1, by omega⟩
    have hscore : overall_score (List.replicate (m + 1) ((50 : ℚ), (1 : ℚ))) = 50 := by
      simp only [overall_score, List.map_replicate, List.replicate_succ,
        List.isEmpty_cons, Bool.false_eq_true, if_false, List.sum_cons,
        List.length_cons, ← List.replicate_succ, List.sum_replicate,
        List.length_replicate, nsmul_eq_mul]
      push_cast
      field_simp
    refine ⟨hscore, ?_, ?_⟩
    · simp only [overall_confidence, List.map_replicate, List.sum_replicate,
        List.length_replicate, nsmul_eq_mul, mul_one]
      rw [div_self hne]
      norm_num [round2, round_eq]
    · unfold overall_trend
      rw [hscore]
      norm_num
  · intro risks hne
    obtain ⟨p, rest, rfl⟩ : ∃ p rest, risks = p :: rest := by
      cases risks with
      | nil => exact absurd rfl hne
      | cons a l => exact ⟨a, l, rfl⟩
    have hscore_eq : overall_score (p :: rest) =
        (((p :: rest).map fun rc => rc.1 * rc.2).sum) / ((p :: rest).length) := by
      simp [overall_score, List.length_map]
    refine ⟨hscore_eq, rfl, ?_, ?_, ?_⟩
    · unfold overall_trend
      split_ifs with h1 h2 <;> simp <;>
        (repeat' apply And.intro) <;> intros <;> linarith
    · unfold overall_trend
      split_ifs with h1 h2 <;> simp <;>
        (repeat' apply And.intro) <;> intros <;> linarith
    · unfold overall_trend
      split_ifs with h1 h2 <;> simp <;>
        (repeat' apply And.intro) <;> intros <;> linarith

/-- Claim C5, witness: three categories all scoring 50 with confidence
1.0 give overall_score 50, overall confidence 1.0 and trend stable. -/
theorem claimC5_witness :
    overall_score (List.replicate 3 ((50 : ℚ), (1 : ℚ))) = 50 ∧
    overall_confidence (List.replicate 3 ((50 : ℚ), (1 : ℚ))) = 1 ∧
    overall_trend (List.replicate 3 ((50 : ℚ), (1 : ℚ))) = "stable" :=
  claimC5_theorem.1 3 (by norm_num)

/-- Claim C6: the cyclone risk function (modelled from the spec, the
implementation not being under src/) short-circuits on zero active
systems to score exactly 10, level VERY_LOW, confidence 0.90,
independent of the coastal factor; with active systems it returns
20 plus the coastal factor (default 0.3) times 15 with confidence
0.65. -/
theorem claimC6_theorem :
    (∀ coastal, calculate_cyclone_risk 0 coastal =
      { level := "VERY_LOW", score := 10, confidence := 9/10 }) ∧
    (∀ (n : ℕ) (coastal : Option ℚ), n ≠ 0 →
      0 ≤ coastal.getD (3/10) → coastal.getD (3/10) ≤ 1 →
      (calculate_cyclone_risk n coastal).score = 20 + coastal.getD (3/10) * 15 ∧
      (calculate_cyclone_risk n coastal).confidence = 13/20) := by
  constructor
  · intro coastal
    unfold calculate_cyclone_risk
    rw [if_pos rfl]
    have : get_risk_level 10 = "VERY_LOW" := by norm_num [get_risk_level]
    rw [this]
  · intro n coastal hn h0 h1
    have hmin : min 95 (20 + coastal.getD (3/10) * 15) = 20 + coastal.getD (3/10) * 15 :=
      min_eq_right (by linarith)
    have hscore : (calculate_cyclone_risk n coastal).score =
        min 95 (20 + coastal.getD (3/10) * 15) := by
      unfold calculate_cyclone_risk
      rw [if_neg hn]
    have hconf : (calculate_cyclone_risk n coastal).confidence = 13/20 := by
      unfold calculate_cyclone_risk
      rw [if_neg hn]
    exact ⟨by rw [hscore, hmin], hconf⟩

/-- Claim C6, witness: one active system with coastal factor 0.5 gives
score 27.5 and confidence 0.65. -/
theorem claimC6_witness :
    (calculate_cyclone_risk 1 (some (1/2))).score = 20 + (some (1/2) : Option ℚ).getD (3/10) * 15 ∧
    (calculate_cyclone_risk 1 (some (1/2))).confidence = 13/20 :=
  claimC6_theorem.2 1 (some (1/2)) (by norm_num)
    (by norm_num [Option.getD_some]) (by norm_num [Option.getD_some])

/-- Claim C7, counterexample: two flood assessments share the stored
score 20.00 (raw scores 19.996 and 20, rainfall 39.992 and 40, both
with turbidity 0) yet carry different levels (Low versus Moderate),
because the level is computed from the unrounded score while the stored
score is rounded to two decimals — so level is not a function of the
returned score. -/
theorem claimC7_counterexample :
    (calculate_flood_risk ⟨some (4999/125), none⟩ ⟨some 0, none⟩).map
      (fun a => (a.score, a.level)) = some ((20 : ℚ), "Low") ∧
    (calculate_flood_risk ⟨some 40, none⟩ ⟨some 0, none⟩).map
      (fun a => (a.score, a.level)) = some ((20 : ℚ), "Moderate") ∧
    ("Low" : String) ≠ "Moderate" := by
  refine ⟨?_, ?_, by decide⟩
  · simp only [calculate_flood_risk, Option.map_some']
    norm_num [flood_raw_score, round2, round_eq, _score_to_level, min_def]
  · simp only [calculate_flood_risk, Option.map_some']
    norm_num [flood_raw_score, round2, round_eq, _score_to_level, min_def]

/-- Claim C7, amended: the returned (rounded) score of each category is
monotone in its severity-driving raw input with the others fixed —
non-decreasing in rainfall for flood, in fire count for fire, in AQI
for air, in turbidity for water, in population for population pressure,
and non-increasing in rainfall for drought, whose severity driver is
the rainfall deficit — and the level is a pure, total function of the
unrounded score (not of the rounded stored score). -/
theorem claimC7_theorem :
    (∀ t r1 r2 : ℚ, r1 ≤ r2 →
      round2 (flood_raw_score r1 t) ≤ round2 (flood_raw_score r2 t)) ∧
    (∀ i c1 c2 : ℚ, c1 ≤ c2 →
      round2 (fire_raw_score c1 i) ≤ round2 (fire_raw_score c2 i)) ∧
    (∀ (sn : String) (r1 r2 : ℚ), r1 ≤ r2 →
      round2 (drought_raw_score r2 sn) ≤ round2 (drought_raw_score r1 sn)) ∧
    (∀ a1 a2 : ℚ, a1 ≤ a2 →
      round2 (air_raw_score a1) ≤ round2 (air_raw_score a2)) ∧
    (∀ ph t1 t2 : ℚ, t1 ≤ t2 →
      round2 (water_raw_score ph t1) ≤ round2 (water_raw_score ph t2)) ∧
    (∀ g p1 p2 : ℚ, p1 ≤ p2 →
      round2 (population_raw_score p1 g) ≤ round2 (population_raw_score p2 g)) ∧
    (∀ r t sn ph, (calculate_flood_risk ⟨some r, sn⟩ ⟨some t, ph⟩).map
      (fun a => (a.score, a.level)) =
      some (round2 (flood_raw_score r t), _score_to_level (flood_raw_score r t))) ∧
    (∀ aqi, (calculate_air_quality_risk ⟨some aqi⟩).map
      (fun a => (a.score, a.level)) =
      some (round2 (air_raw_score aqi), _score_to_level (air_raw_score aqi))) := by
  refine ⟨?_, ?_, ?_, ?_, ?_, ?_, ?_, ?_⟩
  · intro t r1 r2 h
    exact round2_mono (min_le_min le_rfl (by linarith))
  · intro i c1 c2 h
    exact round2_mono (min_le_min le_rfl (by nlinarith))
  · intro sn r1 r2 h
    refine round2_mono (min_le_min le_rfl ?_)
    split_ifs
    · exact mul_le_mul_of_nonneg_right (max_le_max le_rfl (by linarith)) (by norm_num)
    · exact max_le_max le_rfl (by linarith)
  · intro a1 a2 h
    exact round2_mono (min_le_min le_rfl (by linarith))
  · intro ph t1 t2 h
    exact round2_mono (min_le_min le_rfl (by nlinarith))
  · intro g p1 p2 h
    exact round2_mono (min_le_min le_rfl (by linarith))
  · intro r t sn ph
    simp only [calculate_flood_risk, Option.map_some']
  · intro aqi
    simp only [calculate_air_quality_risk, Option.map_some']

/-- Claim C7, witness: flood monotonicity instantiated at turbidity 0
between rainfall 1 and rainfall 2. -/
theorem claimC7_witness :
    round2 (flood_raw_score 1 0) ≤ round2 (flood_raw_score 2 0) :=
  claimC7_theorem.1 0 1 2 (by norm_num)

/-- Claim C8: primary_threats equals the spec ranking (top three
category names by raw score descending, equal scores in the fixed
declaration order flood, fire, drought, cyclone, air_quality,
water_quality, pollution), and the stable descending sort it takes them
from is a descending permutation of the declared risks. -/
theorem claimC8_theorem (s1 s2 s3 s4 s5 s6 s7 : ℚ) :
    primary_threats (risk_items s1 s2 s3 s4 s5 s6 s7) =
      spec_primary_threats (risk_items s1 s2 s3 s4 s5 s6 s7) ∧
    (sortDesc (risk_items s1 s2 s3 s4 s5 s6 s7)).Pairwise (fun a b => b.2 ≤ a.2) ∧
    List.Perm (sortDesc (risk_items s1 s2 s3 s4 s5 s6 s7))
      (risk_items s1 s2 s3 s4 s5 s6 s7) := by
  refine ⟨?_, sortDesc_sorted _, sortDesc_perm _⟩
  have hpw : ((risk_items s1 s2 s3 s4 s5 s6 s7).enum).Pairwise
      (fun a b => a.1 < b.1) := by
    simp [risk_items, List.enum, List.enumFrom, List.pairwise_cons]
  have h := sortDesc_eq_rankSort ((risk_items s1 s2 s3 s4 s5 s6 s7).enum) hpw
  rw [List.enum_map_snd] at h
  unfold primary_threats spec_primary_threats
  rw [h, ← List.map_take, List.map_map]
  rfl

/-- Claim C9: every engine-produced assessment carries one of the four
legacy level strings, never HIGH or CRITICAL, so the per-category alert
test of get_location_alerts is false on every engine output and no
individual high-risk category alert can be emitted from it. -/
theorem claimC9_theorem :
    (∀ s : ℚ, _score_to_level s ∈ legacy_levels ∧
      level_triggers_alert (_score_to_level s) = false) ∧
    (∀ r t sn ph, (calculate_flood_risk ⟨some r, sn⟩ ⟨some t, ph⟩).map
      (fun a => level_triggers_alert a.level) = some false) ∧
    (∀ c i, (calculate_fire_risk ⟨some c, some i⟩).map
      (fun a => level_triggers_alert a.level) = some false) ∧
    (∀ r sn, (calculate_drought_risk ⟨some r, some sn⟩).map
      (fun a => level_triggers_alert a.level) = some false) ∧
    (∀ aqi, (calculate_air_quality_risk ⟨some aqi⟩).map
      (fun a => level_triggers_alert a.level) = some false) ∧
    (∀ t ph, (calculate_water_quality_risk ⟨some t, some ph⟩).map
      (fun a => level_triggers_alert a.level) = some false) ∧
    (∀ p g, (calculate_population_pressure ⟨some p, some g⟩).map
      (fun a => level_triggers_alert a.level) = some false) := by
  refine ⟨score_to_level_no_alert, ?_, ?_, ?_, ?_, ?_, ?_⟩
  · intro r t sn ph
    simp only [calculate_flood_risk, Option.map_some']
    exact congrArg some (score_to_level_no_alert _).2
  · intro c i
    simp only [calculate_fire_risk, Option.map_some']
    exact congrArg some (score_to_level_no_alert _).2
  · intro r sn
    simp only [calculate_drought_risk, Option.map_some']
    exact congrArg some (score_to_level_no_alert _).2
  · intro aqi
    simp only [calculate_air_quality_risk, Option.map_some']
    exact congrArg some (score_to_level_no_alert _).2
  · intro t ph
    simp only [calculate_water_quality_risk, Option.map_some']
    exact congrArg some (score_to_level_no_alert _).2
  · intro p g
    simp only [calculate_population_pressure, Option.map_some']
    exact congrArg some (score_to_level_no_alert _).2

/-- Claim C10: no engine-produced risk dict has a data_quality key (its
.get returns none on that key for every category), so
calculate_data_quality counts zero risks as real and returns 0 for
every nonempty aggregation built from engine outputs. -/
theorem claimC10_theorem :
    (∀ a, flood_dict_get a "data_quality" = none) ∧
    (∀ a, fire_dict_get a "data_quality" = none) ∧
    (∀ a, drought_dict_get a "data_quality" = none) ∧
    (∀ a, air_dict_get a "data_quality" = none) ∧
    (∀ a, water_dict_get a "data_quality" = none) ∧
    (∀ a, population_dict_get a "data_quality" = none) ∧
    (∀ risks : List (String → Option PyVal), risks ≠ [] →
      (∀ g ∈ risks, is_engine_output g) → calculate_data_quality risks = 0) := by
  refine ⟨fun _ => rfl, fun _ => rfl, fun _ => rfl, fun _ => rfl, fun _ => rfl,
    fun _ => rfl, ?_⟩
  intro risks hne hall
  have hfilter :
      (risks.filter fun risk => risk "data_quality" == some (PyVal.str "real")) = [] := by
    rw [List.filter_eq_nil_iff]
    intro g hg
    rcases hall g hg with ⟨a, rfl⟩ | ⟨a, rfl⟩ | ⟨a, rfl⟩ | ⟨a, rfl⟩ | ⟨a, rfl⟩ | ⟨a, rfl⟩ <;>
      exact fun hcontra => Bool.false_ne_true hcontra
  simp [calculate_data_quality, hfilter, round1]

/-- Claim C10, witness: a singleton aggregation holding one concrete
flood assessment dict has data quality percentage 0. -/
theorem claimC10_witness :
    calculate_data_quality [flood_dict_get
      { level := "Low", score := 0, confidence := 9/10,
        recommendations := [], community_impact := "",
        basic_needs := normal_basic_needs, flood_type := "",
        expected_impact_areas := [] }] = 0 :=
  claimC10_theorem.2.2.2.2.2.2 _ (by simp)
    (fun g hg => by
      rw [List.mem_singleton] at hg
      subst hg
      exact Or.inl ⟨_, rfl⟩)
